import Mathlib

/-!
Verification of the `lumos.rpc` request/reply RPC layer (`src/lumos/rpc.py`).

The Python module is shallowly embedded below: JSON values become an
inductive `JVal`, Python dicts carrying JSON data become ordered
association lists (`OrderedDict` semantics: updating an existing key keeps
its position, a new key is appended), ZMQ messages become `Frame` lists
(one list element per wire frame, `SNDMORE` implied by the list structure),
and the server/client handler code becomes total Lean functions over those
types.  External libraries (`json.loads`, ZMQ transport, numpy) are not
re-implemented: the outcome of JSON parsing is passed to the handler as an
`Option JVal`, the transport is the `Frame` list itself, and an ndarray is
a `(shape, dtype, data-bytes)` triple.
-/

namespace Lumos

/-- JSON values as produced by `simplejson`.  In Python 2 a JSON string and
a raw byte buffer are the same type (`str`), so `JVal.str` also represents
binary payloads held in Python values. -/
inductive JVal where
  | null
  | bool (b : Bool)
  | num (n : Int)
  | str (s : String)
  | arr (xs : List JVal)
  | obj (fields : List (String × JVal))

mutual

/-- Decidable equality on `JVal` (written out by hand: automatic deriving
does not handle the nesting through `List`). -/
def JVal.decEq : (a b : JVal) → Decidable (a = b)
  | .null, .null => isTrue rfl
  | .bool a, .bool b =>
    if h : a = b then isTrue (by rw [h]) else isFalse (fun he => h (by injection he))
  | .num a, .num b =>
    if h : a = b then isTrue (by rw [h]) else isFalse (fun he => h (by injection he))
  | .str a, .str b =>
    if h : a = b then isTrue (by rw [h]) else isFalse (fun he => h (by injection he))
  | .arr xs, .arr ys =>
    match JVal.decEqList xs ys with
    | isTrue h => isTrue (by rw [h])
    | isFalse h => isFalse (fun he => h (by injection he))
  | .obj fs, .obj gs =>
    match JVal.decEqFields fs gs with
    | isTrue h => isTrue (by rw [h])
    | isFalse h => isFalse (fun he => h (by injection he))
  | .null, .bool _ => isFalse nofun
  | .null, .num _ => isFalse nofun
  | .null, .str _ => isFalse nofun
  | .null, .arr _ => isFalse nofun
  | .null, .obj _ => isFalse nofun
  | .bool _, .null => isFalse nofun
  | .bool _, .num _ => isFalse nofun
  | .bool _, .str _ => isFalse nofun
  | .bool _, .arr _ => isFalse nofun
  | .bool _, .obj _ => isFalse nofun
  | .num _, .null => isFalse nofun
  | .num _, .bool _ => isFalse nofun
  | .num _, .str _ => isFalse nofun
  | .num _, .arr _ => isFalse nofun
  | .num _, .obj _ => isFalse nofun
  | .str _, .null => isFalse nofun
  | .str _, .bool _ => isFalse nofun
  | .str _, .num _ => isFalse nofun
  | .str _, .arr _ => isFalse nofun
  | .str _, .obj _ => isFalse nofun
  | .arr _, .null => isFalse nofun
  | .arr _, .bool _ => isFalse nofun
  | .arr _, .num _ => isFalse nofun
  | .arr _, .str _ => isFalse nofun
  | .arr _, .obj _ => isFalse nofun
  | .obj _, .null => isFalse nofun
  | .obj _, .bool _ => isFalse nofun
  | .obj _, .num _ => isFalse nofun
  | .obj _, .str _ => isFalse nofun
  | .obj _, .arr _ => isFalse nofun

/-- Decidable equality on lists of `JVal`. -/
def JVal.decEqList : (xs ys : List JVal) → Decidable (xs = ys)
  | [], [] => isTrue rfl
  | [], _ :: _ => isFalse nofun
  | _ :: _, [] => isFalse nofun
  | x :: xs, y :: ys =>
    match JVal.decEq x y with
    | isFalse h => isFalse (fun he => h (by injection he))
    | isTrue h1 =>
      match JVal.decEqList xs ys with
      | isTrue h2 => isTrue (by rw [h1, h2])
      | isFalse h2 => isFalse (fun he => h2 (by injection he))

/-- Decidable equality on JSON object field lists. -/
def JVal.decEqFields :
    (fs gs : List (String × JVal)) → Decidable (fs = gs)
  | [], [] => isTrue rfl
  | [], _ :: _ => isFalse nofun
  | _ :: _, [] => isFalse nofun
  | (k, v) :: fs, (l, w) :: gs =>
    if hk : k = l then
      match JVal.decEq v w with
      | isFalse h => isFalse (fun he => by
          injection he with h1 h2
          injection h1 with hk1 hv1
          exact h hv1)
      | isTrue hv =>
        match JVal.decEqFields fs gs with
        | isTrue h2 => isTrue (by rw [hk, hv, h2])
        | isFalse h2 => isFalse (fun he => h2 (by injection he))
    else
      isFalse (fun he => by
        injection he with h1 h2
        injection h1 with hk1 hv1
        exact hk hk1)

end

instance : DecidableEq JVal := JVal.decEq

/-- Ordered key/value fields of a JSON object / Python `dict`. -/
abbrev Fields := List (String × JVal)

/-- Python `d[k]` lookup on an association list (first match). -/
def alistGet {α : Type} (fs : List (String × α)) (k : String) : Option α :=
  (fs.find? (fun p => p.1 == k)).map Prod.snd

/-- Python `d[k] = v` on an `OrderedDict`: update in place if the key is
present, append otherwise. -/
def alistSet {α : Type} (fs : List (String × α)) (k : String) (v : α) :
    List (String × α) :=
  if fs.any (fun p => p.1 == k) then
    fs.map (fun p => if p.1 == k then (k, v) else p)
  else fs ++ [(k, v)]

/-! Message templates, `rpc.py` lines 70-74. -/

/-- `call_request_template = dict(type='call', call=None)` -/
def call_request_template : Fields := [("type", .str "call"), ("call", .null)]

/-- `call_reply_template = dict(status='ok', type='value', value=None)` -/
def call_reply_template : Fields :=
  [("status", .str "ok"), ("type", .str "value"), ("value", .null)]

/-- `call_reply_raw_template = dict(status='ok', type='raw')` -/
def call_reply_raw_template : Fields := [("status", .str "ok"), ("type", .str "raw")]

/-- `call_reply_image_template = dict(status='ok', type='image', shape=None, dtype=None)` -/
def call_reply_image_template : Fields :=
  [("status", .str "ok"), ("type", .str "image"), ("shape", .null), ("dtype", .null)]

/-- `reply_error_template = dict(status='error', type='msg', msg=None)` -/
def reply_error_template : Fields :=
  [("status", .str "error"), ("type", .str "msg"), ("msg", .null)]

/-- `make_call_request(call, params)`, lines 84-88. -/
def make_call_request (call : JVal) (params : JVal) : Fields :=
  alistSet (alistSet call_request_template "call" call) "params" params

/-- `make_call_reply(value)`, lines 91-94. -/
def make_call_reply (value : JVal) : Fields :=
  alistSet call_reply_template "value" value

/-- `make_call_reply_raw()`, lines 97-99. -/
def make_call_reply_raw : Fields := call_reply_raw_template

/-- `make_call_reply_image(image)`, lines 102-106: fills `shape` with the
array's dimension list and `dtype` with the element type name. -/
def make_call_reply_image (shape : List Nat) (dtype : String) : Fields :=
  alistSet (alistSet call_reply_image_template "shape"
    (.arr (shape.map (fun d => .num (Int.ofNat d))))) "dtype" (.str dtype)

/-- `make_error_reply(msg)`, lines 109-112. -/
def make_error_reply (msg : String) : Fields :=
  alistSet reply_error_template "msg" (.str msg)

/-! Canned error replies, lines 116-119. -/

def reply_bad_json : Fields := make_error_reply "JSON error"
def reply_bad_request : Fields := make_error_reply "Bad request"
def reply_bad_call : Fields := make_error_reply "Unknown call"
def reply_bad_params : Fields := make_error_reply "Bad params"

/-! Python run-time values returned by call targets, as far as the reply
encoder distinguishes them (`Server.handle`, lines 360-381): a numpy
`ndarray` (shape, element type name, underlying byte buffer) or any
JSON-representable value.  In Python 2 a byte buffer is a `str`, so
`PyVal.val (.str s)` is both a JSON string and a raw payload buffer. -/

inductive PyVal where
  | ndarray (shape : List Nat) (dtype : String) (data : String)
  | val (j : JVal)

/-- `isinstance(retval, np.ndarray)` (line 362). -/
def isNd : PyVal → Bool
  | .ndarray _ _ _ => true
  | .val _ => false

/-- A Python exception: class name and message. -/
structure PyExc where
  cls : String
  msg : String

/-- CPython's `TypeError` message for a keyword/argument mismatch at a call
site (the exact text varies with the callable; it is opaque here). -/
def kwarg_mismatch_msg : String := "got an unexpected keyword argument"

/-- A registered call target: the payload-kind flags stamped on the
callable by `enable_raw`/`enable_image` (`_rpc_raw_payload_attr`,
`_rpc_image_payload_attr`, lines 62-64), the callable's keyword signature
(whether a given set of keyword names binds to its parameters), and its
body.  The body may raise (`Except.error`). -/
structure Target where
  imagePayload : Bool := false
  rawPayload : Bool := false
  accepts : List String → Bool
  body : List (String × JVal) → Except PyExc PyVal

/-- `call_target(**params)` (line 361): Python raises `TypeError` at the
call site when the keyword names do not bind to the target's signature;
otherwise the body runs. -/
def callTarget (t : Target) (params : List (String × JVal)) : Except PyExc PyVal :=
  if t.accepts (params.map Prod.fst) then t.body params
  else .error ⟨"TypeError", kwarg_mismatch_msg⟩

/-- The registry of user-exported callables (`_exported_callables` as the
dispatch loop sees it: qualified name to callable, an ordered dict). -/
structure RpcState where
  callables : List (String × Target)

/-- The helper `list_` (lines 245-247): takes no parameters and returns
`_exported_callables.keys()`.  It reads the registry at call time, so it
is constructed from the current list of registered names. -/
def listTarget (names : List String) : Target where
  accepts := fun ks => ks.isEmpty
  body := fun _ => .ok (.val (.arr (names.map JVal.str)))

/-- `_helpers` (line 247): the single built-in entry, keyed `"rpc.list"`. -/
def helpers (st : RpcState) : List (String × Target) :=
  [("rpc.list", listTarget (st.callables.map Prod.fst))]

/-- Outcome of the name-dispatch block (lines 352-357): `call in _helpers`
raises `TypeError` when `call` is unhashable (a JSON array or object);
otherwise helpers are consulted first, then user callables. -/
inductive Resolved where
  | found (t : Target)
  | notFound
  | unhashable

/-- Dispatch lookup, helpers first (lines 352-357). -/
def resolveCall (st : RpcState) (callv : JVal) : Resolved :=
  match callv with
  | .str c =>
    match alistGet (helpers st) c with
    | some t => .found t
    | none =>
      match alistGet st.callables c with
      | some t => .found t
      | none => .notFound
  | .arr _ => .unhashable
  | .obj _ => .unhashable
  | _ => .notFound

/-- One wire frame: either a JSON message (`send_json`) or a binary
payload (`send`/`send_multipart`).  A reply is the list of frames sent for
one request. -/
inductive Frame where
  | json (fields : Fields)
  | bin (data : String)
  deriving DecidableEq

/-- `TypeError` message for `socket.send` applied to a non-buffer object
(opaque text). -/
def unsendable_msg : String := "object does not provide a buffer interface"

/-- `TypeError` message raised by `send_json` on a non-serializable value
(opaque text). -/
def unserializable_msg : String := "is not JSON serializable"

/-- Reply encoding for a successfully invoked target (`Server.handle`
lines 362-381).  The image branch fires only when the target carries the
image-payload flag AND the value is an ndarray; the raw branch sends the
raw header first, then the payload frames (`send_multipart` for a
list/tuple, `send` otherwise); anything else is wrapped by
`make_call_reply` and sent as JSON.  A `TypeError` raised while sending
(non-buffer payload, non-serializable value) is caught by the
`except Exception` handler (lines 384-385) and turned into a generic error
reply, which goes out as the next frame. -/
def encodeReply (t : Target) (retval : PyVal) : List Frame :=
  match retval, t.imagePayload with
  | .ndarray shape dtype data, true =>
    [.json (make_call_reply_image shape dtype), .bin data]
  | _, _ =>
    if t.rawPayload then
      .json make_call_reply_raw ::
        (match retval with
         | .val (.arr xs) =>
           -- send_multipart: every part must be a buffer (a str), else TypeError
           if xs.all (fun x => match x with | .str _ => true | _ => false) then
             xs.filterMap (fun x => match x with | .str s => some (Frame.bin s) | _ => none)
           else
             [.json (make_error_reply ("TypeError: " ++ unsendable_msg))]
         | .val (.str s) => [.bin s]
         | .ndarray _ _ data => [.bin data]
         | .val _ =>
           -- len(retval) / send(retval) raises TypeError on non-buffers
           [.json (make_error_reply ("TypeError: " ++ unsendable_msg))])
    else
      match retval with
      | .val j => [.json (make_call_reply j)]
      | .ndarray _ _ _ =>
        [.json (make_error_reply ("TypeError: " ++ unserializable_msg))]

/-- Invoke a resolved target and encode its reply (lines 360-385).  Any
exception the invocation raises — including the call-site `TypeError` for
mismatched keywords — is caught by `except Exception` (line 384) and
re-raised as `RPCError("<class>: <message>")` with no canned reply dict,
so the wire carries a generic error reply built from the message. -/
def execCall (t : Target) (pfields : List (String × JVal)) : List Frame :=
  match callTarget t pfields with
  | .ok retval => encodeReply t retval
  | .error e => [.json (make_error_reply (e.cls ++ ": " ++ e.msg))]

/-- `Server.handle` on an already-parsed request value (lines 338-397).
Missing `type`/`call` keys raise `KeyError`, caught at line 390 and
answered with `reply_bad_request`; a non-dict request or an unknown
request type is also `reply_bad_request`; non-mapping `params` is
`reply_bad_params` (line 346); an unhashable call name raises `TypeError`
during lookup, caught at line 386 and answered with `reply_bad_params`. -/
def handleDict (st : RpcState) (request : JVal) : List Frame :=
  match request with
  | .obj fields =>
    match alistGet fields "type" with
    | none => [.json reply_bad_request]
    | some rtype =>
      if rtype = .str "call" then
        match alistGet fields "call" with
        | none => [.json reply_bad_request]
        | some callv =>
          -- params = request.get('params', {}) (line 345)
          match (alistGet fields "params").getD (.obj []) with
          | .obj pfields =>
            match resolveCall st callv with
            | .found t => execCall t pfields
            | .notFound => [.json reply_bad_call]
            | .unhashable => [.json reply_bad_params]
          | _ => [.json reply_bad_params]
      else [.json reply_bad_request]
  | _ => [.json reply_bad_request]

/-- Python 2 `str.strip()` whitespace predicate. -/
def pyIsSpace (c : Char) : Bool :=
  c == ' ' || c == '\t' || c == '\n' || c == '\r' || c == '\x0b' || c == '\x0c'

/-- Python `request.strip()` (line 331). -/
def pyStrip (s : String) : String :=
  String.mk (((s.toList.dropWhile pyIsSpace).reverse.dropWhile pyIsSpace).reverse)

/-- The bare-token test of line 332: no space, colon, comma or brace. -/
def noDelims (s : String) : Bool :=
  !(s.toList.contains ' ' || s.toList.contains ':' || s.toList.contains ',' ||
    s.toList.contains '\x7b' || s.toList.contains '\x7d')

/-- `Server.handle` on a string request (lines 322-335): `json.loads` is
external, so its outcome is supplied as `parseResult` (`some` parsed value
or `none` for a `JSONDecodeError`).  On parse failure the stripped string
is treated as a bare call name when it has no delimiter characters,
otherwise the handler answers `reply_bad_json` (via `RPCError`, caught at
line 394). -/
def handle (st : RpcState) (parseResult : Option JVal) (request : String) :
    List Frame :=
  match parseResult with
  | some j => handleDict st j
  | none =>
    let t := pyStrip request
    if noDelims t then
      handleDict st (.obj (make_call_request (.str t) (.obj [])))
    else
      [.json reply_bad_json]

/-! ### Wire bytes of a frame

On the wire a JSON frame is its serialized text; the client's raw-payload
loop calls `recv()` and sees those bytes.  The serializer below stands in
for `simplejson.dumps` (escaping elided — irrelevant to the properties
proved here). -/

mutual

def serializeJ : JVal → String
  | .null => "null"
  | .bool true => "true"
  | .bool false => "false"
  | .num n => toString n
  | .str s => "\"" ++ s ++ "\""
  | .arr xs => "[" ++ serializeArr xs ++ "]"
  | .obj fs => "\x7b" ++ serializeFields fs ++ "\x7d"

def serializeArr : List JVal → String
  | [] => ""
  | [x] => serializeJ x
  | x :: y :: xs => serializeJ x ++ ", " ++ serializeArr (y :: xs)

def serializeFields : List (String × JVal) → String
  | [] => ""
  | [(k, v)] => "\"" ++ k ++ "\": " ++ serializeJ v
  | (k, v) :: g :: gs => "\"" ++ k ++ "\": " ++ serializeJ v ++ ", " ++ serializeFields (g :: gs)

end

/-- Bytes delivered by `recv()` for one frame. -/
def frameBytes : Frame → String
  | .bin s => s
  | .json fs => serializeJ (.obj fs)

/-! ### Client (`Client.request`, lines 425-470) -/

/-- What `Client.request` returns, as a Python value.  `JVal.null` never
appears under `json` (a JSON `null` becomes Python `None`, i.e. `none`);
`raised` marks an exception propagating out of `request()` uncaught. -/
inductive PyRet where
  | none
  | json (j : JVal)
  | image (shape : JVal) (dtype : JVal) (data : String)
  | exc (msg : JVal)
  | raised (what : String)
  deriving DecidableEq

/-- Returning `rep['value']` to Python: JSON `null` is Python `None`. -/
def pyOfJVal : JVal → PyRet
  | .null => .none
  | j => .json j

/-- Input to one `Client.request` receive: either the reply frames, or a
receive timeout (`zmq.EAGAIN`, lines 464-466). -/
inductive ClientIn where
  | timeout
  | reply (frames : List Frame)

/-- `Client.request` decode (lines 429-470).  The first frame must parse
as JSON (else `JSONDecodeError` is logged and `None` returned); an error
status returns an `Exception` object with the reply's message
(`rep.get('msg', 'Unknown error')`); a value reply returns the inline
value; an image reply reads exactly one more frame; a raw reply drains
the remaining frames, returning the single payload or the ordered list;
anything else falls through to the explicit default `return None`. -/
def clientRequest (input : ClientIn) : PyRet :=
  match input with
  | .timeout => .none
  | .reply [] => .none
  | .reply (first :: rest) =>
    match first with
    | .bin _ => .none  -- recv_json: JSONDecodeError, logged, default None
    | .json rep =>
      match alistGet rep "status" with
      | Option.none => .raised "KeyError: status"
      | some status =>
        if status = .str "error" then
          .exc ((alistGet rep "msg").getD (.str "Unknown error"))
        else
          match alistGet rep "type" with
          | Option.none => .raised "KeyError: type"
          | some rtype =>
            if rtype = .str "value" ∧ (alistGet rep "value").isSome then
              pyOfJVal ((alistGet rep "value").getD .null)
            else if rtype = .str "image" ∧ (alistGet rep "shape").isSome ∧
                (alistGet rep "dtype").isSome ∧ rest ≠ [] then
              -- np.frombuffer(...).reshape(...) abstracted as the triple
              .image ((alistGet rep "shape").getD .null)
                ((alistGet rep "dtype").getD .null)
                (frameBytes (rest.headD (.bin "")))
            else if rtype = .str "raw" ∧ rest ≠ [] then
              let payloads := rest.map frameBytes
              if payloads.length == 1 then .json (.str (payloads.headD ""))
              else .json (.arr (payloads.map JVal.str))
            else
              .none

/-! ### Serve-loop stop flag (`Server.run` / `Server.stop`)

`_loop_flag` is declared as a class attribute (line 268).  `run()` assigns
`self._loop_flag = True` (line 296), which in Python creates an *instance*
attribute shadowing the class attribute; the loop condition
`while self._loop_flag` (line 297) reads through the instance first.
`stop()` is a classmethod and assigns the *class* attribute (line 401).
The state below models exactly that attribute pair. -/

structure LoopState where
  classFlag : Bool          -- Server._loop_flag (class attribute)
  instFlag : Option Bool    -- self._loop_flag (instance attribute, if ever assigned)

/-- Python attribute lookup for `self._loop_flag`: the instance attribute
if present, else the class attribute. -/
def loopFlagRead (s : LoopState) : Bool := s.instFlag.getD s.classFlag

/-- Line 296, executed when `run()` enters its serve loop. -/
def runEnter (s : LoopState) : LoopState := { s with instFlag := some true }

/-- `Server.stop` (lines 399-401): `cls._loop_flag = False`. -/
def stopServer (s : LoopState) : LoopState := { s with classFlag := false }

/-! ### Process-wide bind-address guard (`_running_instances`, line 267)

Model: the set of live bound servers as a list of (instance identity,
address) pairs.  `run()` first scans for an instance with the same address
and aborts without binding if one exists (lines 278-281); otherwise it
binds and adds itself (lines 289-290); on exit it removes itself
(line 314). -/

abbrev RunningSet := List (Nat × String)

/-- The bind step of `Server.run`: refuse (no change) if any running
instance already holds the address, else bind and register. -/
def runBind (s : RunningSet) (id : Nat) (addr : String) : RunningSet :=
  if s.any (fun p => p.2 == addr) then s else (id, addr) :: s

/-- The clean-up step of `Server.run`: `_running_instances.remove(self)`. -/
def runFinish (s : RunningSet) (id : Nat) (addr : String) : RunningSet :=
  s.erase (id, addr)

/-- States of `_running_instances` reachable from module load (empty set)
by servers entering and leaving `run()`. -/
inductive RunReachable : RunningSet → Prop where
  | init : RunReachable []
  | bind {s} (id : Nat) (addr : String) :
      RunReachable s → RunReachable (runBind s id addr)
  | finish {s} (id : Nat) (addr : String) :
      RunReachable s → RunReachable (runFinish s id addr)

/-! ### Registry refresh (`refresh`, `enable`, `disable`)

For the dispatch-table membership properties the registry is modelled at
the name level: `_exported_objects` maps an object name to its methods,
each with its `_rpc_enabled` flag (the attribute `enable`/`disable` set on
the function object); `_exported_callables` maps a qualified name to a
(object, method) reference. -/

structure Registry where
  objects : List (String × List (String × Bool))
  callables : List (String × (String × String))

/-- `refresh()` (lines 490-503): for every exported object, every
rpc-enabled method is (re-)assigned into `_exported_callables` under
`"<object>.<method>"`.  Nothing is ever removed from the table.
(`getmembers` returns members sorted by name; declaration order is kept
here, which does not affect membership.)  `refreshObj` is the body of the
outer loop (lines 494-500), `refresh` the whole function. -/
def refreshObj (acc : List (String × (String × String)))
    (obj : String × List (String × Bool)) : List (String × (String × String)) :=
  obj.2.foldl
    (fun a m => if m.2 then alistSet a (obj.1 ++ "." ++ m.1) (obj.1, m.1) else a)
    acc

def refresh (r : Registry) : Registry :=
  { r with callables := r.objects.foldl refreshObj r.callables }

/-- `disable` applied to a method of an exported object (lines 147-153):
clears the `_rpc_enabled` attribute on the method's function object. -/
def disableMethod (r : Registry) (o m : String) : Registry :=
  { r with objects :=
      r.objects.map (fun obj =>
        if obj.1 == o then
          (obj.1, obj.2.map (fun p => if p.1 == m then (p.1, false) else p))
        else obj) }

/-- `enable` applied to a method of an exported object (lines 123-134):
sets the `_rpc_enabled` attribute. -/
def enableMethod (r : Registry) (o m : String) : Registry :=
  { r with objects :=
      r.objects.map (fun obj =>
        if obj.1 == o then
          (obj.1, obj.2.map (fun p => if p.1 == m then (p.1, true) else p))
        else obj) }

/-! ### Sample targets and reply-shape classifier used by the theorems -/

/-- The module's own test export `mul(a, b)` (lines 534-536): a plain
value target taking exactly the keywords `a` and `b`. -/
def mul_target : Target where
  accepts := fun ks => ks.length == 2 && ks.contains "a" && ks.contains "b"
  body := fun ps =>
    match alistGet ps "a", alistGet ps "b" with
    | some (.num x), some (.num y) => .ok (.val (.num (x * y)))
    | _, _ => .error ⟨"TypeError", "unsupported operand type(s)"⟩

/-- A target registered with `enable_image` whose body returns a plain
value instead of an ndarray. -/
def image_value_target : Target where
  imagePayload := true
  accepts := fun _ => true
  body := fun _ => .ok (.val (.num 7))

/-- A target registered with `enable_image` whose body returns a 2x2
uint8 ndarray. -/
def image_demo_target : Target where
  imagePayload := true
  accepts := fun _ => true
  body := fun _ => .ok (.ndarray [2, 2] "uint8" "abcd")

/-- A target registered with `enable_raw`. -/
def raw_demo_target : Target where
  rawPayload := true
  accepts := fun _ => true
  body := fun _ => .ok (.val .null)

/-- The wire shape of a reply: classified by the `type` tag of its first
(JSON) frame, mirroring how `Client.request` switches on `rep['type']`. -/
inductive WireShape where
  | value
  | raw
  | image
  | errorMsg
  | other
  deriving DecidableEq

/-- Classify a frame list by the `type` field of its leading JSON frame. -/
def shapeOf (frames : List Frame) : WireShape :=
  match frames with
  | .json fields :: _ =>
    match alistGet fields "type" with
    | some (.str "value") => .value
    | some (.str "raw") => .raw
    | some (.str "image") => .image
    | some (.str "msg") => .errorMsg
    | _ => .other
  | _ => .other

/-! ### Helper lemmas -/

/-- Every reply `execCall` produces starts with a JSON frame. -/
theorem execCall_json_head (t : Target) (p : List (String × JVal)) :
    ∃ f rest, execCall t p = Frame.json f :: rest := by
  unfold execCall
  cases callTarget t p with
  | error e => exact ⟨_, _, rfl⟩
  | ok r =>
    unfold encodeReply
    rcases r with ⟨sh, dt, d⟩ | j
    · cases t.imagePayload
      · dsimp only
        split
        · exact ⟨_, _, rfl⟩
        · exact ⟨_, _, rfl⟩
      · exact ⟨_, _, rfl⟩
    · dsimp only
      split
      · exact ⟨_, _, rfl⟩
      · exact ⟨_, _, rfl⟩

/-- Every reply `handleDict` produces starts with a JSON frame: the
handler always answers with a reply message, never silently and never by
escaping the loop. -/
theorem handleDict_json_head (st : RpcState) (j : JVal) :
    ∃ f rest, handleDict st j = Frame.json f :: rest := by
  unfold handleDict
  repeat' split
  all_goals first
    | exact ⟨_, _, rfl⟩
    | apply execCall_json_head

/-- All elements of a mapped-in string list pass `send_multipart`'s
buffer check. -/
theorem all_str_map (l : List String) :
    (l.map JVal.str).all
      (fun x => match x with | .str _ => true | _ => false) = true := by
  induction l with
  | nil => rfl
  | cons a l ih => simp [ih]

/-- `send_multipart` on a list of string buffers sends one binary frame
per buffer, in order. -/
theorem filterMap_str_map (l : List String) :
    (l.map JVal.str).filterMap
        (fun x => match x with | .str s => some (Frame.bin s) | _ => none) =
      l.map Frame.bin := by
  induction l with
  | nil => rfl
  | cons a l ih => simpa using ih

/-- Receiving binary frames returns their bytes unchanged. -/
theorem map_frameBytes_bin (l : List String) :
    (l.map Frame.bin).map frameBytes = l := by
  induction l with
  | nil => rfl
  | cons a l ih => simpa [frameBytes] using ih

/-! ## Claims -/

/-- C1 (refuted; code bug): the spec says `stop()` sets the stop flag and
the serve loop observes it at its next iteration boundary and exits.  In
the code, `run()` executes `self._loop_flag = True` (line 296), creating
an *instance* attribute that shadows the class attribute, while the
classmethod `stop()` (line 401) assigns the *class* attribute.  Whatever
the prior state, once a running server has entered its loop a `stop()`
leaves the loop condition `self._loop_flag` reading `True`, so the loop
never observes the stop flag. -/
theorem c1_stop_never_observed_by_running_loop (s : LoopState) :
    loopFlagRead (runEnter s) = true ∧
    loopFlagRead (stopServer (runEnter s)) = true ∧
    (stopServer (runEnter s)).classFlag = false :=
  ⟨rfl, rfl, rfl⟩

/-- C2 counterexample: no request or reply envelope stores its
discriminator under the key `"kind"` — the lookup the claim requires
comes back empty on the envelopes the code builds. -/
theorem c2_counterexample_no_kind_key :
    alistGet (make_call_request (.str "foo") (.obj [])) "kind" = none ∧
    alistGet (make_call_reply (.num 1)) "kind" = none ∧
    alistGet make_call_reply_raw "kind" = none ∧
    alistGet (make_error_reply "oops") "kind" = none := by decide

/-- C2 (amended): the discriminator key is `"type"`, not `"kind"`:
requests are `{"type":"call","call":<name>,"params":<params>}`, value
replies are `{"status":"ok","type":"value","value":<v>}`, and the server
recognizes a structured request by reading `request['type']` — a request
object without that key is answered with the BadRequest error reply. -/
theorem c2_envelope_discriminator_is_type_key (st : RpcState)
    (c p v : JVal) (fields : Fields)
    (h : alistGet fields "type" = none) :
    alistGet (make_call_request c p) "type" = some (.str "call") ∧
    alistGet (make_call_request c p) "call" = some c ∧
    alistGet (make_call_request c p) "params" = some p ∧
    alistGet (make_call_reply v) "status" = some (.str "ok") ∧
    alistGet (make_call_reply v) "type" = some (.str "value") ∧
    alistGet (make_call_reply v) "value" = some v ∧
    handleDict st (.obj fields) = [.json reply_bad_request] := by
  refine ⟨rfl, rfl, rfl, rfl, rfl, rfl, ?_⟩
  simp [handleDict, h]

/-- C2 witness: the amended claim at a concrete request, reply and
field-less envelope. -/
theorem c2_envelope_discriminator_is_type_key_witness :
    alistGet (make_call_request (.str "f") (.obj [])) "type" = some (.str "call") ∧
    alistGet (make_call_request (.str "f") (.obj [])) "call" = some (.str "f") ∧
    alistGet (make_call_request (.str "f") (.obj [])) "params" = some (.obj []) ∧
    alistGet (make_call_reply (.num 3)) "status" = some (.str "ok") ∧
    alistGet (make_call_reply (.num 3)) "type" = some (.str "value") ∧
    alistGet (make_call_reply (.num 3)) "value" = some (.num 3) ∧
    handleDict ⟨[]⟩ (.obj []) = [.json reply_bad_request] :=
  c2_envelope_discriminator_is_type_key ⟨[]⟩ (.str "f") (.obj []) (.num 3) [] rfl

/-- C3 (refuted; code bug): the spec says disabling a method and calling
`rebuild()` removes its dispatch entry.  `refresh()` (lines 490-503) only
ever *adds* enabled methods to `_exported_callables` and never removes
anything, so after `disable` + `refresh()` the stale entry is still
dispatchable.  Concretely: export object `O` with enabled method `m`,
refresh (the entry `"O.m"` appears), disable `m` (its enabled flag really
is cleared), refresh again — the entry is still present. -/
theorem c3_disable_refresh_leaves_stale_entry :
    alistGet (refresh ⟨[("O", [("m", true)])], []⟩).callables "O.m" =
      some ("O", "m") ∧
    (disableMethod (refresh ⟨[("O", [("m", true)])], []⟩) "O" "m").objects =
      [("O", [("m", false)])] ∧
    alistGet (refresh (disableMethod (refresh ⟨[("O", [("m", true)])], []⟩)
        "O" "m")).callables "O.m" = some ("O", "m") := by decide

/-- C4 counterexample: a target registered with the Image payload kind
whose body returns the plain value `7` is answered with a *Value*-shaped
reply, not an Image-shaped one — the reply shape does depend on the
run-time type of the returned value, contradicting the claim. -/
theorem c4_counterexample_image_target_value_reply :
    image_value_target.imagePayload = true ∧
    handleDict ⟨[("grab", image_value_target)]⟩
        (.obj (make_call_request (.str "grab") (.obj []))) =
      [.json (make_call_reply (.num 7))] ∧
    shapeOf (handleDict ⟨[("grab", image_value_target)]⟩
        (.obj (make_call_request (.str "grab") (.obj [])))) = .value := by decide

/-- C4 (amended): the Value and Raw payload kinds fix the wire shape at
registration time, but the Image kind is conditional on the run-time
value: an Image-kind target gets the Image wire shape exactly when it
returns an ndarray, and otherwise falls back to the Raw or Value shape
as if the image flag were unset (line 362 checks
`isinstance(retval, np.ndarray)`). -/
theorem c4_reply_shape_by_kind_and_runtime_array (t : Target) (r : PyVal) :
    (t.imagePayload = true → isNd r = true →
      shapeOf (encodeReply t r) = .image) ∧
    (t.imagePayload = false → t.rawPayload = true →
      shapeOf (encodeReply t r) = .raw) ∧
    (t.imagePayload = true → isNd r = false → t.rawPayload = true →
      shapeOf (encodeReply t r) = .raw) ∧
    (isNd r = false → t.rawPayload = false →
      shapeOf (encodeReply t r) = .value) ∧
    (t.imagePayload = false → t.rawPayload = false → isNd r = true →
      shapeOf (encodeReply t r) = .errorMsg) := by
  obtain ⟨img, raw, acc, bod⟩ := t
  rcases r with ⟨sh, dt, d⟩ | j <;> cases img <;> cases raw <;>
    refine ⟨?_, ?_, ?_, ?_, ?_⟩ <;> intros <;> simp_all [isNd] <;> rfl

/-- C4 witness: the amended claim at concrete targets and values — an
Image-kind target returning an ndarray gets the Image shape; a Raw-kind
target returning a number still gets the Raw shape. -/
theorem c4_reply_shape_witness :
    shapeOf (encodeReply image_demo_target (.ndarray [2, 2] "uint8" "abcd")) =
      .image ∧
    shapeOf (encodeReply raw_demo_target (.val (.num 5))) = .raw :=
  ⟨(c4_reply_shape_by_kind_and_runtime_array image_demo_target
      (.ndarray [2, 2] "uint8" "abcd")).1 rfl rfl,
   (c4_reply_shape_by_kind_and_runtime_array raw_demo_target
      (.val (.num 5))).2.1 rfl rfl⟩

/-- C5 (refuted; code bug): calling the module's own `mul(a, b)` target
with the mismatched keyword `x` does *not* produce the BadParams reply.
The call-site `TypeError` is caught by the inner `except Exception`
handler (line 384), which re-raises `RPCError("TypeError: ...")` with no
canned reply, so a *generic* error reply goes out; the dedicated
`except TypeError → reply_bad_params` handler (lines 386-387) never sees
it.  Only the params-not-a-mapping check (line 346) answers BadParams. -/
theorem c5_kwarg_mismatch_generic_error_not_badparams :
    handleDict ⟨[("mul", mul_target)]⟩
        (.obj (make_call_request (.str "mul") (.obj [("x", .num 1)]))) =
      [.json (make_error_reply ("TypeError: " ++ kwarg_mismatch_msg))] ∧
    handleDict ⟨[("mul", mul_target)]⟩
        (.obj (make_call_request (.str "mul") (.obj [("x", .num 1)]))) ≠
      [.json reply_bad_params] ∧
    handleDict ⟨[("mul", mul_target)]⟩
        (.obj (make_call_request (.str "mul") (.num 5))) =
      [.json reply_bad_params] := by decide

/-- C6 (confirmed): a string request that fails JSON parsing is, when its
stripped form has no delimiter characters, handled exactly like the
structured envelope `{"type":"call","call":<token>,"params":{}}`; when it
does contain a delimiter the server answers the BadJSON error reply; and
in either case the handler returns a JSON reply normally (the serve loop
is untouched — no exception escapes, so the loop proceeds to its next
iteration). -/
theorem c6_parse_failure_shorthand_or_badjson (st : RpcState) (s : String) :
    (noDelims (pyStrip s) = true →
      handle st none s =
        handle st (some (.obj (make_call_request (.str (pyStrip s)) (.obj [])))) s) ∧
    (noDelims (pyStrip s) = false →
      handle st none s = [.json reply_bad_json]) ∧
    (∃ f rest, handle st none s = Frame.json f :: rest) := by
  refine ⟨fun h => ?_, fun h => ?_, ?_⟩
  · simp [handle, h]
  · simp [handle, h]
  · by_cases h : noDelims (pyStrip s) = true
    · simp only [handle, h, if_true]
      exact handleDict_json_head st _
    · simp only [handle, Bool.not_eq_true] at h
      simp only [handle, h, Bool.false_eq_true, if_false]
      exact ⟨_, _, rfl⟩

/-- C6 witness: the shorthand branch for the bare token `" mul "` and the
BadJSON branch for the delimited string `"a b"`. -/
theorem c6_parse_failure_witness :
    handle ⟨[]⟩ none " mul " =
      handle ⟨[]⟩ (some (.obj (make_call_request (.str "mul") (.obj [])))) " mul " ∧
    handle ⟨[]⟩ none "a b" = [.json reply_bad_json] :=
  ⟨(c6_parse_failure_shorthand_or_badjson ⟨[]⟩ " mul ").1 (by decide),
   (c6_parse_failure_shorthand_or_badjson ⟨[]⟩ "a b").2.1 (by decide)⟩

/-- C7 counterexample: there is no built-in call named `list-calls`.  On a
server with an empty registry the request dispatches to nothing and is
answered with the UnknownCall reply, and the helper table has no such
key — so `list-calls` is not "always dispatchable". -/
theorem c7_counterexample_list_calls_unknown :
    handleDict ⟨[]⟩ (.obj (make_call_request (.str "list-calls") (.obj []))) =
      [.json reply_bad_call] ∧
    alistGet (helpers ⟨[]⟩) "list-calls" = none :=
  ⟨by decide, rfl⟩

/-- C7 (amended): the built-in enumeration call is named `"rpc.list"`
(line 247), not `list-calls`.  For every registry state it is present in
the helper table, dispatch resolves it to the helper even when a user
target of the same name is registered (helpers are checked first,
lines 352-355), and calling it returns a Value reply listing all
currently registered user callable names. -/
theorem c7_rpc_list_builtin_and_unshadowable (st : RpcState) :
    alistGet (helpers st) "rpc.list" =
      some (listTarget (st.callables.map Prod.fst)) ∧
    resolveCall st (.str "rpc.list") =
      .found (listTarget (st.callables.map Prod.fst)) ∧
    handleDict st (.obj (make_call_request (.str "rpc.list") (.obj []))) =
      [.json (make_call_reply (.arr ((st.callables.map Prod.fst).map JVal.str)))] :=
  ⟨rfl, rfl, rfl⟩

/-- C8 (confirmed): Raw payload round trip.  A Raw-kind target returning
a single buffer is decoded by the client to that buffer; one returning an
ordered list of more than one buffer is decoded to the same ordered
list. -/
theorem c8_raw_round_trip (t : Target) (b : String) (bs : List String)
    (hraw : t.rawPayload = true) (hk : 1 < bs.length) :
    clientRequest (.reply (encodeReply t (.val (.str b)))) = .json (.str b) ∧
    clientRequest (.reply (encodeReply t (.val (.arr (bs.map .str))))) =
      .json (.arr (bs.map .str)) := by
  obtain ⟨img, raw, acc, bod⟩ := t
  simp only at hraw
  subst hraw
  rcases bs with _ | ⟨b1, bs⟩
  · simp at hk
  rcases bs with _ | ⟨b2, bs⟩
  · simp at hk
  constructor
  · cases img <;> rfl
  · have hf : encodeReply ⟨img, true, acc, bod⟩
        (.val (.arr ((b1 :: b2 :: bs).map .str))) =
        .json make_call_reply_raw :: (b1 :: b2 :: bs).map Frame.bin := by
      cases img <;>
        simp only [encodeReply, all_str_map, filterMap_str_map, if_true]
    rw [hf]
    simp only [clientRequest, map_frameBytes_bin]
    rfl

/-- C8 witness: the round trip at a concrete Raw target, a concrete
single buffer and a concrete two-buffer list. -/
theorem c8_raw_round_trip_witness :
    clientRequest (.reply (encodeReply raw_demo_target (.val (.str "xy")))) =
      .json (.str "xy") ∧
    clientRequest (.reply (encodeReply raw_demo_target
        (.val (.arr [.str "p", .str "q"])))) =
      .json (.arr [.str "p", .str "q"]) :=
  ⟨(c8_raw_round_trip raw_demo_target "xy" ["p", "q"] rfl (by decide)).1,
   (c8_raw_round_trip raw_demo_target "xy" ["p", "q"] rfl (by decide)).2⟩

/-- C9 (confirmed): in every state of the process-wide running-instance
set reachable by servers entering and leaving `run()`, the bound
addresses are pairwise distinct, and a bind attempt at an address some
running instance already holds is refused without change (lines
278-281). -/
theorem c9_bind_addresses_duplicate_free (s : RunningSet)
    (h : RunReachable s) :
    (s.map Prod.snd).Nodup ∧
    ∀ id addr, (∃ p ∈ s, p.2 = addr) → runBind s id addr = s := by
  constructor
  · induction h with
    | init => simp
    | bind id addr hr ih =>
      unfold runBind
      split
      · exact ih
      · rename_i hany
        rw [List.map_cons, List.nodup_cons]
        refine ⟨fun hmem => hany ?_, ih⟩
        rw [List.any_eq_true]
        rw [List.mem_map] at hmem
        obtain ⟨p, hp, he⟩ := hmem
        exact ⟨p, hp, by simp [he]⟩
    | finish id addr hr ih =>
      exact List.Nodup.sublist ((List.erase_sublist _ _).map Prod.snd) ih
  · intro id addr hmem
    obtain ⟨p, hp, he⟩ := hmem
    unfold runBind
    rw [if_pos]
    rw [List.any_eq_true]
    exact ⟨p, hp, by simp [he]⟩

/-- C9 witness: the invariant and the refusal at a concrete one-server
state reached by a successful bind from the empty set. -/
theorem c9_bind_addresses_duplicate_free_witness :
    (([((0 : Nat), "tcp://*:60606")].map Prod.snd)).Nodup ∧
    ∀ id addr, (∃ p ∈ [((0 : Nat), "tcp://*:60606")], p.2 = addr) →
      runBind [((0 : Nat), "tcp://*:60606")] id addr =
        [((0 : Nat), "tcp://*:60606")] :=
  c9_bind_addresses_duplicate_free _
    (RunReachable.bind 0 "tcp://*:60606" RunReachable.init)

/-- C10 (confirmed): `Client.request` returns Python `None` alike for a
receive timeout, for a Value reply whose `value` is JSON `null`, and for
a Raw reply followed by zero binary frames — the three outcomes are
indistinguishable to the caller; only a server Error reply produces a
distinct outcome, an `Exception` object carrying the server's message. -/
theorem c10_timeout_null_and_empty_raw_collapse_to_none :
    clientRequest .timeout = .none ∧
    clientRequest (.reply [.json (make_call_reply .null)]) = .none ∧
    clientRequest (.reply [.json make_call_reply_raw]) = .none ∧
    (∀ m : String, clientRequest (.reply [.json (make_error_reply m)]) =
      .exc (.str m)) ∧
    (∀ m : String, PyRet.exc (.str m) ≠ .none) := by
  refine ⟨by decide, by decide, by decide, fun m => rfl, fun m => by simp⟩

end Lumos
